import Mathlib

set_option maxHeartbeats 1000000

/-!
Shallow embedding of the workout assembly engine of `src/main.py`
(the `/generate-workout` endpoint of the trueform API).

Python semantics modelled explicitly:
  * `str.lower()`        → `pyLower` (char-wise `Char.toLower`; all data is ASCII),
  * `str.strip()`        → `pyTrim`,
  * `s.replace(" ", "")` → `pyRemoveSpaces`,
  * `needle in hay`      → `strContainsSub` (substring test),
  * dict `.get`          → association-list lookup with default,
  * `random.choice`      → indexing by a choice oracle `oc : Nat → Nat` (one
    draw per slot position), reduced modulo the pool size,
  * `random.sample(l,k)` → `sampleAux`, drawing `k` distinct positions guided
    by a per-slot stream `os : Nat → Nat → Nat`; every possible outcome of the
    Python sampler corresponds to some oracle value,
  * `raise HTTPException(status_code=400, detail=d)` → `Except.error d`.

Request fields the engine never reads (`daysPerWeek`, `lastWorked`,
`weeklyVolume`, `goal`) are omitted from the embedded `WorkoutRequest`.
The exercise catalog (`EXERCISES`, loaded from a remote CSV at startup) is a
runtime input, so it is a parameter `catalog : List Exercise` here.
-/

structure Exercise where
  name : String
  muscleGroup : String
  bodyRegion : String
  movementType : String
  equipment : List String
  workoutRole : String
  workoutSubtype : String
  archetypes : List String
deriving DecidableEq

structure WorkoutRequest where
  availableTime : Int
  archetype : String
  focus : String
  equipmentAccess : List String
  userPrefs : List String
deriving DecidableEq

structure ExerciseOut where
  name : String
  muscleGroup : String
  movementType : String
  sets : Nat
  reps : String
  rest : Nat
  alternatives : List String
  suggestion : Option String
deriving DecidableEq

/-- Python `str.lower()` (char-wise; the engine's data is ASCII). -/
def pyLower (s : String) : String := ⟨s.data.map Char.toLower⟩

/-- Python `str.strip()`: drop whitespace at both ends. -/
def pyTrim (s : String) : String :=
  ⟨((s.data.dropWhile Char.isWhitespace).reverse.dropWhile Char.isWhitespace).reverse⟩

/-- Python `s.replace(" ", "")`: remove every space. -/
def pyRemoveSpaces (s : String) : String := ⟨s.data.filter (fun c => c != ' ')⟩

/-- Does `needle` occur at the head of `hay`? -/
def startsWithChars : List Char → List Char → Bool
  | _, [] => true
  | [], _ :: _ => false
  | h :: hs, n :: ns => h == n && startsWithChars hs ns

/-- Does `needle` occur contiguously anywhere in the second list? -/
def containsChars (needle : List Char) : List Char → Bool
  | [] => startsWithChars [] needle
  | h :: hs => startsWithChars (h :: hs) needle || containsChars needle hs

/-- Python `needle in hay` for strings: substring test. -/
def strContainsSub (hay needle : String) : Bool := containsChars needle.data hay.data

/-- `REST_TIME_DEFAULT = 60` (src/main.py line 94). -/
def REST_TIME_DEFAULT : Nat := 60

/-- `ARCHETYPE_PLANS` (src/main.py lines 96-127): archetype → ordered slot plan,
each slot `(workout subtype, sets, reps scheme)`. -/
def ARCHETYPE_PLANS : List (String × List (String × Nat × String)) :=
  [("Prime",
     [("powercompound", 3, "3-5"), ("explosive", 3, "5"), ("contrast set", 3, "6"),
      ("unilateralisolation", 2, "8-10"), ("core", 3, "20")]),
   ("Titan",
     [("powercompound", 4, "5"), ("volumecompound", 4, "6"), ("bilateralisolation", 3, "10-12"),
      ("bilateralisolation", 3, "10-12"), ("core", 3, "15")]),
   ("Vanguard",
     [("offset load", 3, "6-8"), ("unilateralcompound", 3, "8"), ("isometric", 3, "20-30s"),
      ("carry/load", 3, "30s"), ("core", 3, "15")]),
   ("Bodyweight",
     [("mobility", 2, "30-60s"), ("explosive", 2, "5-6"), ("lowercompound", 2, "10-15"),
      ("uppercompound", 2, "8-12"), ("unilateral", 2, "8-10"), ("isometric", 2, "20-30s"),
      ("core", 2, "20")])]

/-- `SUBTYPE_TIMES` (src/main.py lines 129-145): per-subtype duration cost. -/
def SUBTYPE_TIMES : List (String × Int) :=
  [("powercompound", 10), ("volumecompound", 8), ("unilateralisolation", 6),
   ("bilateralisolation", 6), ("core", 5), ("explosive", 6), ("contrast set", 8),
   ("carry/load", 6), ("offset load", 6), ("isometric", 5), ("unilateralcompound", 6),
   ("mobility", 5), ("lowercompound", 6), ("uppercompound", 6), ("unilateral", 6)]

/-- Python `SUBTYPE_TIMES.get(key, dflt)`. -/
def subtypeTime (key : String) (dflt : Int) : Int :=
  match SUBTYPE_TIMES.find? (fun p => p.1 == key) with
  | some p => p.2
  | none => dflt

/-- Python `ARCHETYPE_PLANS.get(archetype)`. -/
def planGet (archetype : String) : Option (List (String × Nat × String)) :=
  (ARCHETYPE_PLANS.find? (fun p => p.1 == archetype)).map (fun p => p.2)

/-- The `focus_map` lookup of `generate_workout` (src/main.py lines 185-192). -/
def focusMap (f : String) : Option String :=
  if f == "upper" ∨ f == "upperbody" then some "upper"
  else if f == "lower" ∨ f == "lowerbody" then some "lower"
  else if f == "fullbody" ∨ f == "full" then some "full body"
  else none

/-- Focus normalisation of src/main.py line 184 plus the `focus_map` lookup:
`data.focus.lower().replace(" ", "")` then map or reject. -/
def normFocus (data : WorkoutRequest) : Option String :=
  focusMap (pyRemoveSpaces (pyLower data.focus))

/-- Equipment-access resolution of src/main.py lines 174-177: `"Bodyweight"`
archetype overrides to `["Bodyweight"]`; otherwise an empty list defaults to
the fixed six-token list. -/
def effectiveEquipment (data : WorkoutRequest) : List String :=
  if data.archetype == "Bodyweight" then ["Bodyweight"]
  else if data.equipmentAccess == [] then
    ["Barbell", "Dumbbell", "Cable", "Kettlebell", "Machine", "Bodyweight"]
  else data.equipmentAccess

/-- The `body_region_filter` of `filter_exercises` (src/main.py lines 211-219). -/
def bodyRegionFilter (focus subtypeClean : String) : List String :=
  if subtypeClean == "core" then ["core"]
  else if focus == "upper" then ["upper"]
  else if focus == "lower" then ["lower"]
  else ["upper", "lower", "full body", "core"]

/-- The per-exercise predicate of the list comprehension in `filter_exercises`
(src/main.py lines 221-234).  Python `and` binds tighter than `or` in the
archetype clause. -/
def exMatches (archetype : String) (equipmentAccess userPrefs : List String)
    (focus subtypeClean : String) (ex : Exercise) : Bool :=
  (subtypeClean == pyLower (pyTrim ex.workoutSubtype)
    || subtypeClean == pyLower (pyTrim ex.workoutRole))
  && ((archetype == "Bodyweight" && ex.archetypes.contains "BodyWeight")
    || ex.archetypes.contains archetype)
  && ex.equipment.any (fun eq => equipmentAccess.contains eq)
  && (bodyRegionFilter focus subtypeClean).contains ex.bodyRegion
  && !(userPrefs.any (fun pref => strContainsSub (pyLower ex.name) (pyLower pref)))

/-- `filter_exercises` (src/main.py lines 207-236), restricted to the candidate
list it returns; its `block_time` result is `subtypeTime` of the cleaned
subtype with default 6, computed separately where needed. -/
def filter_exercises (catalog : List Exercise) (archetype : String)
    (equipmentAccess userPrefs : List String) (focus subtype : String) : List Exercise :=
  catalog.filter (exMatches archetype equipmentAccess userPrefs focus (pyLower (pyTrim subtype)))

/-- Placeholder record used as the (never reached) default of `List.getD` when
indexing a pool already known non-empty. -/
def exDefault : Exercise := ⟨"", "", "", "", [], "", "", []⟩

/-- Python `random.choice(pool)`: one oracle-guided draw from a non-empty pool. -/
def pyChoice (pool : List Exercise) (o : Nat) : Exercise :=
  pool.getD (o % pool.length) exDefault

/-- Python `random.sample(pool, k)` for string lists: draw `k` distinct
positions, each guided by the oracle stream `f`.  Every subset the Python
sampler can return is the value at some oracle. -/
def sampleAux (d : String) : List String → Nat → (Nat → Nat) → List String
  | _, 0, _ => []
  | pool, k + 1, f =>
    if pool = [] then []
    else
      pool.getD (f 0 % pool.length) d ::
        sampleAux d (pool.eraseIdx (f 0 % pool.length)) k (fun j => f (j + 1))

/-- The `alts` comprehension repeated at src/main.py lines 242-245, 268-271 and
288-291: names of pool members other than the chosen one sharing its muscle
group. -/
def altNames (filtered : List Exercise) (chosen : Exercise) : List String :=
  (filtered.filter
    (fun alt => alt.name != chosen.name && alt.muscleGroup == chosen.muscleGroup)).map
    (fun alt => alt.name)

/-- One output record as appended at src/main.py lines 246-255, 272-281 and
292-301: chosen exercise data, slot sets/reps, default rest, a sample of at
most three alternatives, and the slot's fixed suggestion text. -/
def mkOut (chosen : Exercise) (sets : Nat) (reps : String) (sugg : Option String)
    (filtered : List Exercise) (f : Nat → Nat) : ExerciseOut :=
  ⟨chosen.name, chosen.muscleGroup, chosen.movementType, sets, reps, REST_TIME_DEFAULT,
    sampleAux "" (altNames filtered chosen) (min 3 (altNames filtered chosen).length) f, sugg⟩

/-- The middle `for subtype, sets, reps in remaining_plan` loop of
`generate_workout` (src/main.py lines 259-282).  Returns the appended records
and the final `current_time`.  The `break` check at line 260 uses the
un-stripped lowered subtype; the consumed `block_time` (line 282 via line 209)
uses the stripped lowered subtype, exactly as in the source. -/
def middleLoop (catalog : List Exercise) (archetype : String)
    (equipmentAccess userPrefs : List String) (focus : String) (maxTime : Int)
    (oc : Nat → Nat) (os : Nat → Nat → Nat) :
    List (String × Nat × String) → Int → Nat → List ExerciseOut × Int
  | [], current, _ => ([], current)
  | (subtype, sets, reps) :: rest, current, idx =>
    if current + subtypeTime (pyLower subtype) 6 > maxTime - subtypeTime "core" 5 then
      ([], current)
    else if filter_exercises catalog archetype equipmentAccess userPrefs focus subtype = [] then
      middleLoop catalog archetype equipmentAccess userPrefs focus maxTime oc os rest current
        (idx + 1)
    else
      (mkOut (pyChoice (filter_exercises catalog archetype equipmentAccess userPrefs focus subtype)
          (oc idx)) sets reps none
          (filter_exercises catalog archetype equipmentAccess userPrefs focus subtype) (os idx) ::
        (middleLoop catalog archetype equipmentAccess userPrefs focus maxTime oc os rest
          (current + subtypeTime (pyLower (pyTrim subtype)) 6) (idx + 1)).1,
       (middleLoop catalog archetype equipmentAccess userPrefs focus maxTime oc os rest
          (current + subtypeTime (pyLower (pyTrim subtype)) 6) (idx + 1)).2)

/-- The main-lift attempt of `generate_workout` (src/main.py lines 238-256):
checked on its own against the whole budget (`current_time = 0`); returns the
(zero- or one-element) output and the resulting `current_time`. -/
def mainPart (catalog : List Exercise) (archetype : String)
    (equipmentAccess userPrefs : List String) (focus : String) (maxTime : Int)
    (mainLift : String × Nat × String) (oc : Nat → Nat) (os : Nat → Nat → Nat) :
    List ExerciseOut × Int :=
  if filter_exercises catalog archetype equipmentAccess userPrefs focus mainLift.1 ≠ [] ∧
      0 + subtypeTime (pyLower (pyTrim mainLift.1)) 6 ≤ maxTime then
    ([mkOut (pyChoice (filter_exercises catalog archetype equipmentAccess userPrefs focus mainLift.1)
        (oc 0)) mainLift.2.1 mainLift.2.2 (some "Main lift to start the workout")
        (filter_exercises catalog archetype equipmentAccess userPrefs focus mainLift.1) (os 0)],
     subtypeTime (pyLower (pyTrim mainLift.1)) 6)
  else ([], 0)

/-- The closing core-slot attempt of `generate_workout` (src/main.py lines
284-301): checked against the budget with the accumulated `current_time`. -/
def corePart (catalog : List Exercise) (archetype : String)
    (equipmentAccess userPrefs : List String) (focus : String) (maxTime : Int)
    (coreSlot : String × Nat × String) (current : Int) (cIdx : Nat)
    (oc : Nat → Nat) (os : Nat → Nat → Nat) : List ExerciseOut :=
  if filter_exercises catalog archetype equipmentAccess userPrefs focus coreSlot.1 ≠ [] ∧
      current + subtypeTime (pyLower (pyTrim coreSlot.1)) 6 ≤ maxTime then
    [mkOut (pyChoice (filter_exercises catalog archetype equipmentAccess userPrefs focus coreSlot.1)
        (oc cIdx)) coreSlot.2.1 coreSlot.2.2 (some "Core exercise to finish the workout")
        (filter_exercises catalog archetype equipmentAccess userPrefs focus coreSlot.1) (os cIdx)]
  else []

/-- The full `output` list built by `generate_workout` (src/main.py lines
197-301): main-lift attempt, then the budget-reserving middle loop threading
`current_time`, then the closing core attempt.  The first slot of the plan is
the main lift, the last is the core slot, and `plan[1:-1]` is the middle. -/
def assembled (catalog : List Exercise) (archetype : String)
    (equipmentAccess userPrefs : List String) (focus : String) (maxTime : Int)
    (plan : List (String × Nat × String)) (oc : Nat → Nat) (os : Nat → Nat → Nat) :
    List ExerciseOut :=
  (mainPart catalog archetype equipmentAccess userPrefs focus maxTime
    (plan.headD ("", 0, "")) oc os).1 ++
  (middleLoop catalog archetype equipmentAccess userPrefs focus maxTime oc os
    ((plan.drop 1).dropLast)
    (mainPart catalog archetype equipmentAccess userPrefs focus maxTime
      (plan.headD ("", 0, "")) oc os).2 1).1 ++
  corePart catalog archetype equipmentAccess userPrefs focus maxTime
    (plan.getLastD ("", 0, ""))
    (middleLoop catalog archetype equipmentAccess userPrefs focus maxTime oc os
      ((plan.drop 1).dropLast)
      (mainPart catalog archetype equipmentAccess userPrefs focus maxTime
        (plan.headD ("", 0, "")) oc os).2 1).2
    ((plan.drop 1).dropLast.length + 1) oc os

/-- `generate_workout` (src/main.py lines 169-306).  Guard order follows the
source: falsy archetype, equipment resolution, plan lookup (`if not plan` also
rejects an empty plan value), focus validation, then the assembly of
`assembled` and the final empty-output 400. -/
def generate_workout (catalog : List Exercise) (data : WorkoutRequest)
    (oc : Nat → Nat) (os : Nat → Nat → Nat) : Except String (List ExerciseOut) :=
  if data.archetype == "" then Except.error "Archetype is required."
  else
    match planGet data.archetype with
    | none => Except.error "Invalid archetype"
    | some plan =>
      if plan = [] then Except.error "Invalid archetype"
      else
        match normFocus data with
        | none => Except.error "Focus must be Upper, Lower, or Full Body"
        | some focus =>
          if assembled catalog data.archetype (effectiveEquipment data) data.userPrefs focus
              data.availableTime plan oc os = [] then
            Except.error "No exercises found matching criteria"
          else
            Except.ok (assembled catalog data.archetype (effectiveEquipment data) data.userPrefs
              focus data.availableTime plan oc os)

/-- Names of a successful response, `[]` on error (for stating concrete runs). -/
def namesOf (r : Except String (List ExerciseOut)) : List String :=
  match r with
  | Except.ok l => l.map (fun o => o.name)
  | Except.error _ => []

/-- Modelled from the spec: relaxation step (2) of §4.1 — the strict slot
filter with the focus (body-region) constraint relaxed, keeping role,
archetype, equipment and exclusion matching.  No such relaxed query exists
anywhere in src/main.py; this definition exists only to state what the spec
demands of the missing relaxation cascade. -/
def exMatchesRelaxFocus (archetype : String) (equipmentAccess userPrefs : List String)
    (subtypeClean : String) (ex : Exercise) : Bool :=
  (subtypeClean == pyLower (pyTrim ex.workoutSubtype)
    || subtypeClean == pyLower (pyTrim ex.workoutRole))
  && ((archetype == "Bodyweight" && ex.archetypes.contains "BodyWeight")
    || ex.archetypes.contains archetype)
  && ex.equipment.any (fun eq => equipmentAccess.contains eq)
  && !(userPrefs.any (fun pref => strContainsSub (pyLower ex.name) (pyLower pref)))

/-- Modelled from the spec: relaxation step (2) of §4.1 as a catalog query
(see `exMatchesRelaxFocus`); absent from src/main.py. -/
def filter_relax_focus (catalog : List Exercise) (archetype : String)
    (equipmentAccess userPrefs : List String) (subtype : String) : List Exercise :=
  catalog.filter (exMatchesRelaxFocus archetype equipmentAccess userPrefs (pyLower (pyTrim subtype)))

/-- Modelled from the spec: relaxation step (3) of §4.1 — drop role matching,
keep archetype + equipment + exclusions; absent from src/main.py. -/
def filter_drop_role (catalog : List Exercise) (archetype : String)
    (equipmentAccess userPrefs : List String) : List Exercise :=
  catalog.filter (fun ex =>
    (((archetype == "Bodyweight" && ex.archetypes.contains "BodyWeight")
        || ex.archetypes.contains archetype)
      && ex.equipment.any (fun eq => equipmentAccess.contains eq)
      && !(userPrefs.any (fun pref => strContainsSub (pyLower ex.name) (pyLower pref)))))

/-- Modelled from the spec: the plateau suggestion text of §4.5 (the spec fixes
no literal wording, only that a plateau suggestion string is emitted). -/
def PLATEAU_TEXT : String :=
  "Plateau detected: consider changing the weight, reps, or exercise variation."

/-- Modelled from the spec: the §4.5 plateau test — at least 3 logged sessions
and the most recent 3 recorded weight vectors element-wise identical.
`ComputeSuggestions` is absent from src/main.py (no history or suggestion
code exists in the repository's source). -/
def plateauHit (sessions : List (List Int)) : Bool :=
  if 3 ≤ sessions.length then
    match sessions.drop (sessions.length - 3) with
    | [a, b, c] => a == b && b == c
    | _ => false
  else false

/-- Modelled from the spec: `ComputeSuggestions(historySnapshot)` of §6/§4.5 —
a pure map over the injected history snapshot (exercise id → ordered session
weight vectors, most recent last) emitting a plateau suggestion per plateaued
id; absent from src/main.py. -/
def compute_suggestions (history : List (String × List (List Int))) : List (String × String) :=
  history.filterMap (fun p => if plateauHit p.2 then some (p.1, PLATEAU_TEXT) else none)

/-- Zero choice oracle (used for concrete runs). -/
def ocZ : Nat → Nat := fun _ => 0

/-- Zero sample oracle (used for concrete runs). -/
def osZ : Nat → Nat → Nat := fun _ _ => 0

/-- Concrete catalog entry: a Titan `bilateralisolation` machine exercise. -/
def exC1 : Exercise :=
  ⟨"Leg Ext", "Quads", "upper", "Isolation", ["Machine"], "accessory", "bilateralisolation",
    ["Titan"]⟩

/-- Concrete request: Titan, upper focus, 40 minutes, machine only. -/
def reqC1 : WorkoutRequest := ⟨40, "Titan", "Upper", ["Machine"], []⟩

/-- Concrete catalog entry: a Titan `volumecompound` exercise whose body region
is `lower` (so an upper-focus strict query rejects it while both relaxed
queries of the spec accept it). -/
def exA : Exercise :=
  ⟨"Machine Row Heavy", "Back", "lower", "Compound", ["Machine"], "secondary", "volumecompound",
    ["Titan"]⟩

/-- Concrete catalog entry: a Titan `bilateralisolation` upper-region exercise. -/
def exB : Exercise :=
  ⟨"Lat Raise", "Shoulders", "upper", "Isolation", ["Machine"], "accessory", "bilateralisolation",
    ["Titan"]⟩

/-- Concrete catalog entry: a Titan `powercompound` barbell bench press. -/
def exMain : Exercise :=
  ⟨"Bench Press", "Chest", "upper", "Compound", ["Barbell"], "primary", "powercompound",
    ["Titan"]⟩

/-- Concrete catalog entry: a second Titan `powercompound` chest exercise (an
alternative for the bench press). -/
def exMain2 : Exercise :=
  ⟨"Incline Press", "Chest", "upper", "Compound", ["Barbell"], "primary", "powercompound",
    ["Titan"]⟩

/-- Concrete catalog entry: a Titan core-region plank. -/
def exCore : Exercise :=
  ⟨"Plank", "Abs", "core", "Isometric", ["Bodyweight"], "core", "core", ["Titan"]⟩

/-- Concrete request: Titan, upper focus, 40 minutes, default equipment. -/
def reqW : WorkoutRequest := ⟨40, "Titan", "Upper", [], []⟩

/-- Concrete request with a falsy (empty-string) archetype. -/
def reqNoArch : WorkoutRequest := ⟨40, "", "Upper", [], []⟩

/-- Concrete request with the unregistered archetype of the spec's scenario. -/
def reqGhost : WorkoutRequest := ⟨40, "Ghost", "Upper", [], []⟩

/-- Concrete request: Prime, lower focus (used for the no-fill witness). -/
def reqPrime : WorkoutRequest := ⟨40, "Prime", "Lower", [], []⟩

/-- The main-lift record `generate_workout` returns on the two-exercise
catalog `[exMain, exCore]` under the zero oracles. -/
def benchRec : ExerciseOut :=
  ⟨"Bench Press", "Chest", "Compound", 4, "5", 60, [], some "Main lift to start the workout"⟩

/-- The closing core record returned on the same concrete run. -/
def plankRec : ExerciseOut :=
  ⟨"Plank", "Abs", "Isometric", 3, "15", 60, [], some "Core exercise to finish the workout"⟩

theorem pyChoice_mem (pool : List Exercise) (o : Nat) (h : pool ≠ []) :
    pyChoice pool o ∈ pool := by
  have hlt : o % pool.length < pool.length := Nat.mod_lt _ (List.length_pos.mpr h)
  rw [pyChoice, List.getD_eq_getElem _ _ hlt]
  exact List.getElem_mem hlt

theorem sampleAux_subset (d : String) :
    ∀ (k : Nat) (pool : List String) (f : Nat → Nat) (x : String),
      x ∈ sampleAux d pool k f → x ∈ pool := by
  intro k
  induction k with
  | zero => intro pool f x hx; simp [sampleAux] at hx
  | succ n ih =>
    intro pool f x hx
    rw [sampleAux] at hx
    by_cases hp : pool = []
    · simp [hp] at hx
    · rw [if_neg hp] at hx
      have hlt : f 0 % pool.length < pool.length := Nat.mod_lt _ (List.length_pos.mpr hp)
      rcases List.mem_cons.mp hx with h | h
      · rw [h, List.getD_eq_getElem _ _ hlt]
        exact List.getElem_mem hlt
      · exact List.eraseIdx_subset _ _ (ih _ _ _ h)

theorem sampleAux_length (d : String) :
    ∀ (k : Nat) (pool : List String) (f : Nat → Nat),
      (sampleAux d pool k f).length = min k pool.length := by
  intro k
  induction k with
  | zero => intro pool f; simp [sampleAux]
  | succ n ih =>
    intro pool f
    rw [sampleAux]
    by_cases hp : pool = []
    · simp [hp]
    · rw [if_neg hp]
      have hlt : f 0 % pool.length < pool.length := Nat.mod_lt _ (List.length_pos.mpr hp)
      have hpos : 0 < pool.length := List.length_pos.mpr hp
      simp only [List.length_cons, ih, List.length_eraseIdx_of_lt hlt]
      omega

theorem sampleAux_perm (d : String) :
    ∀ (k : Nat) (pool : List String) (f : Nat → Nat), pool.length ≤ k →
      (sampleAux d pool k f).Perm pool := by
  intro k
  induction k with
  | zero =>
    intro pool f h
    have : pool = [] := List.length_eq_zero.mp (Nat.le_zero.mp h)
    simp [this, sampleAux]
  | succ n ih =>
    intro pool f h
    rw [sampleAux]
    by_cases hp : pool = []
    · simp [hp]
    · rw [if_neg hp]
      have hlt : f 0 % pool.length < pool.length := Nat.mod_lt _ (List.length_pos.mpr hp)
      have hlen : (pool.eraseIdx (f 0 % pool.length)).length ≤ n := by
        rw [List.length_eraseIdx_of_lt hlt]; omega
      have h1 := ih (pool.eraseIdx (f 0 % pool.length)) (fun j => f (j + 1)) hlen
      rw [List.getD_eq_getElem _ _ hlt]
      exact (List.Perm.cons _ h1).trans
        ((List.Perm.cons _ (List.erase_getElem hlt).symm).trans
          (List.perm_cons_erase (List.getElem_mem hlt)).symm)

theorem mem_altNames {filtered : List Exercise} {chosen : Exercise} {a : String}
    (h : a ∈ altNames filtered chosen) :
    a ≠ chosen.name ∧ ∃ ex ∈ filtered, ex.name = a ∧ ex.muscleGroup = chosen.muscleGroup := by
  simp only [altNames, List.mem_map, List.mem_filter] at h
  obtain ⟨ex, ⟨hmem, hcond⟩, rfl⟩ := h
  simp only [Bool.and_eq_true, bne_iff_ne, beq_iff_eq] at hcond
  exact ⟨hcond.1, ex, hmem, rfl, hcond.2⟩

theorem mkOut_alternatives (chosen : Exercise) (sets : Nat) (reps : String) (sugg : Option String)
    (filtered : List Exercise) (f : Nat → Nat) :
    (mkOut chosen sets reps sugg filtered f).alternatives =
      sampleAux "" (altNames filtered chosen) (min 3 (altNames filtered chosen).length) f := rfl

theorem mkOut_alt_facts (chosen : Exercise) (sets : Nat) (reps : String) (sugg : Option String)
    (filtered : List Exercise) (f : Nat → Nat) :
    (mkOut chosen sets reps sugg filtered f).alternatives.length ≤ 3 ∧
    chosen.name ∉ (mkOut chosen sets reps sugg filtered f).alternatives ∧
    (∀ a ∈ (mkOut chosen sets reps sugg filtered f).alternatives,
      ∃ ex ∈ filtered, ex.name = a ∧ ex.muscleGroup = chosen.muscleGroup) ∧
    ((altNames filtered chosen).length < 3 →
      ∀ a ∈ altNames filtered chosen, a ∈ (mkOut chosen sets reps sugg filtered f).alternatives) := by
  refine ⟨?_, ?_, ?_, ?_⟩
  · rw [mkOut_alternatives, sampleAux_length]; omega
  · intro hmem
    exact (mem_altNames (sampleAux_subset _ _ _ _ _ hmem)).1 rfl
  · intro a ha
    exact (mem_altNames (sampleAux_subset _ _ _ _ _ ha)).2
  · intro hlt a ha
    rw [mkOut_alternatives]
    exact ((sampleAux_perm _ _ _ _ (by omega)).mem_iff).mpr ha

theorem mem_filter_exercises {catalog : List Exercise} {archetype : String}
    {equipmentAccess userPrefs : List String} {focus subtype : String} {ex : Exercise} :
    ex ∈ filter_exercises catalog archetype equipmentAccess userPrefs focus subtype ↔
      ex ∈ catalog ∧
        exMatches archetype equipmentAccess userPrefs focus (pyLower (pyTrim subtype)) ex = true :=
  List.mem_filter

theorem exMatches_parts {archetype : String} {equipmentAccess userPrefs : List String}
    {focus subtypeClean : String} {ex : Exercise}
    (h : exMatches archetype equipmentAccess userPrefs focus subtypeClean ex = true) :
    (∃ e ∈ ex.equipment, e ∈ equipmentAccess) ∧
      ex.bodyRegion ∈ bodyRegionFilter focus subtypeClean := by
  simp only [exMatches, Bool.and_eq_true, List.any_eq_true] at h
  obtain ⟨⟨⟨-, hequip⟩, hregion⟩, -⟩ := h
  obtain ⟨e, he, hacc⟩ := hequip
  exact ⟨⟨e, he, List.elem_iff.mp hacc⟩, List.elem_iff.mp hregion⟩

theorem middleLoop_nil (catalog : List Exercise) (archetype : String)
    (equipmentAccess userPrefs : List String) (focus : String) (maxTime : Int)
    (oc : Nat → Nat) (os : Nat → Nat → Nat) (current : Int) (idx : Nat) :
    middleLoop catalog archetype equipmentAccess userPrefs focus maxTime oc os [] current idx =
      ([], current) := rfl

theorem middleLoop_break (catalog : List Exercise) (archetype : String)
    (equipmentAccess userPrefs : List String) (focus : String) (maxTime : Int)
    (oc : Nat → Nat) (os : Nat → Nat → Nat) (subtype : String) (sets : Nat) (reps : String)
    (rest : List (String × Nat × String)) (current : Int) (idx : Nat)
    (h : current + subtypeTime (pyLower subtype) 6 > maxTime - subtypeTime "core" 5) :
    middleLoop catalog archetype equipmentAccess userPrefs focus maxTime oc os
      ((subtype, sets, reps) :: rest) current idx = ([], current) := by
  rw [middleLoop, if_pos h]

theorem middleLoop_shape (catalog : List Exercise) (archetype : String)
    (equipmentAccess userPrefs : List String) (focus : String) (maxTime : Int)
    (oc : Nat → Nat) (os : Nat → Nat → Nat) :
    ∀ (slots : List (String × Nat × String)) (current : Int) (idx : Nat) (o : ExerciseOut),
      o ∈ (middleLoop catalog archetype equipmentAccess userPrefs focus maxTime oc os
            slots current idx).1 →
      ∃ st sets reps j,
        (st, sets, reps) ∈ slots ∧
        filter_exercises catalog archetype equipmentAccess userPrefs focus st ≠ [] ∧
        o = mkOut (pyChoice (filter_exercises catalog archetype equipmentAccess userPrefs focus st)
              (oc j)) sets reps none
              (filter_exercises catalog archetype equipmentAccess userPrefs focus st) (os j) := by
  intro slots
  induction slots with
  | nil => intro current idx o ho; simp [middleLoop] at ho
  | cons s rest ih =>
    obtain ⟨subtype, sets, reps⟩ := s
    intro current idx o ho
    rw [middleLoop] at ho
    split at ho
    · simp at ho
    · split at ho
      · obtain ⟨st, sets', reps', j, hmem, hne, heq⟩ := ih _ _ _ ho
        exact ⟨st, sets', reps', j, List.mem_cons_of_mem _ hmem, hne, heq⟩
      · rcases List.mem_cons.mp ho with h | h
        · exact ⟨subtype, sets, reps, idx, List.mem_cons_self _ _, by assumption, h⟩
        · obtain ⟨st, sets', reps', j, hmem, hne, heq⟩ := ih _ _ _ h
          exact ⟨st, sets', reps', j, List.mem_cons_of_mem _ hmem, hne, heq⟩

theorem middleLoop_all_empty (catalog : List Exercise) (archetype : String)
    (equipmentAccess userPrefs : List String) (focus : String) (maxTime : Int)
    (oc : Nat → Nat) (os : Nat → Nat → Nat) :
    ∀ (slots : List (String × Nat × String)) (current : Int) (idx : Nat),
      (∀ s ∈ slots,
        filter_exercises catalog archetype equipmentAccess userPrefs focus s.1 = []) →
      middleLoop catalog archetype equipmentAccess userPrefs focus maxTime oc os
        slots current idx = ([], current) := by
  intro slots
  induction slots with
  | nil => intro current idx _; rfl
  | cons s rest ih =>
    obtain ⟨subtype, sets, reps⟩ := s
    intro current idx hall
    rw [middleLoop]
    split
    · rfl
    · rw [if_pos (hall _ (List.mem_cons_self _ _))]
      exact ih _ _ (fun s hs => hall s (List.mem_cons_of_mem _ hs))

theorem middleLoop_sugg_none (catalog : List Exercise) (archetype : String)
    (equipmentAccess userPrefs : List String) (focus : String) (maxTime : Int)
    (oc : Nat → Nat) (os : Nat → Nat → Nat)
    (slots : List (String × Nat × String)) (current : Int) (idx : Nat) (o : ExerciseOut)
    (ho : o ∈ (middleLoop catalog archetype equipmentAccess userPrefs focus maxTime oc os
          slots current idx).1) :
    o.suggestion = none := by
  obtain ⟨st, sets, reps, j, -, -, heq⟩ :=
    middleLoop_shape catalog archetype equipmentAccess userPrefs focus maxTime oc os
      slots current idx o ho
  rw [heq]; rfl

theorem mainPart_shape (catalog : List Exercise) (archetype : String)
    (equipmentAccess userPrefs : List String) (focus : String) (maxTime : Int)
    (mainLift : String × Nat × String) (oc : Nat → Nat) (os : Nat → Nat → Nat) (o : ExerciseOut)
    (ho : o ∈ (mainPart catalog archetype equipmentAccess userPrefs focus maxTime
          mainLift oc os).1) :
    filter_exercises catalog archetype equipmentAccess userPrefs focus mainLift.1 ≠ [] ∧
    o = mkOut (pyChoice (filter_exercises catalog archetype equipmentAccess userPrefs focus
            mainLift.1) (oc 0)) mainLift.2.1 mainLift.2.2
          (some "Main lift to start the workout")
          (filter_exercises catalog archetype equipmentAccess userPrefs focus mainLift.1)
          (os 0) := by
  rw [mainPart] at ho
  split at ho
  · next hcond =>
    rcases List.mem_cons.mp ho with h | h
    · exact ⟨hcond.1, h⟩
    · simp at h
  · simp at ho

theorem mainPart_cases (catalog : List Exercise) (archetype : String)
    (equipmentAccess userPrefs : List String) (focus : String) (maxTime : Int)
    (mainLift : String × Nat × String) (oc : Nat → Nat) (os : Nat → Nat → Nat) :
    (mainPart catalog archetype equipmentAccess userPrefs focus maxTime mainLift oc os).1 = [] ∨
    (mainPart catalog archetype equipmentAccess userPrefs focus maxTime mainLift oc os).1 =
      [mkOut (pyChoice (filter_exercises catalog archetype equipmentAccess userPrefs focus
          mainLift.1) (oc 0)) mainLift.2.1 mainLift.2.2
        (some "Main lift to start the workout")
        (filter_exercises catalog archetype equipmentAccess userPrefs focus mainLift.1) (os 0)] := by
  rw [mainPart]
  split
  · right; rfl
  · left; rfl

theorem mainPart_filter_empty (catalog : List Exercise) (archetype : String)
    (equipmentAccess userPrefs : List String) (focus : String) (maxTime : Int)
    (mainLift : String × Nat × String) (oc : Nat → Nat) (os : Nat → Nat → Nat)
    (h : filter_exercises catalog archetype equipmentAccess userPrefs focus mainLift.1 = []) :
    mainPart catalog archetype equipmentAccess userPrefs focus maxTime mainLift oc os = ([], 0) := by
  rw [mainPart, if_neg]
  intro hcond
  exact hcond.1 h

theorem corePart_shape (catalog : List Exercise) (archetype : String)
    (equipmentAccess userPrefs : List String) (focus : String) (maxTime : Int)
    (coreSlot : String × Nat × String) (current : Int) (cIdx : Nat)
    (oc : Nat → Nat) (os : Nat → Nat → Nat) (o : ExerciseOut)
    (ho : o ∈ corePart catalog archetype equipmentAccess userPrefs focus maxTime coreSlot
          current cIdx oc os) :
    filter_exercises catalog archetype equipmentAccess userPrefs focus coreSlot.1 ≠ [] ∧
    o = mkOut (pyChoice (filter_exercises catalog archetype equipmentAccess userPrefs focus
            coreSlot.1) (oc cIdx)) coreSlot.2.1 coreSlot.2.2
          (some "Core exercise to finish the workout")
          (filter_exercises catalog archetype equipmentAccess userPrefs focus coreSlot.1)
          (os cIdx) := by
  rw [corePart] at ho
  split at ho
  · next hcond =>
    rcases List.mem_cons.mp ho with h | h
    · exact ⟨hcond.1, h⟩
    · simp at h
  · simp at ho

theorem corePart_cases (catalog : List Exercise) (archetype : String)
    (equipmentAccess userPrefs : List String) (focus : String) (maxTime : Int)
    (coreSlot : String × Nat × String) (current : Int) (cIdx : Nat)
    (oc : Nat → Nat) (os : Nat → Nat → Nat) :
    corePart catalog archetype equipmentAccess userPrefs focus maxTime coreSlot current cIdx
        oc os = [] ∨
    corePart catalog archetype equipmentAccess userPrefs focus maxTime coreSlot current cIdx
        oc os =
      [mkOut (pyChoice (filter_exercises catalog archetype equipmentAccess userPrefs focus
          coreSlot.1) (oc cIdx)) coreSlot.2.1 coreSlot.2.2
        (some "Core exercise to finish the workout")
        (filter_exercises catalog archetype equipmentAccess userPrefs focus coreSlot.1)
        (os cIdx)] := by
  rw [corePart]
  split
  · right; rfl
  · left; rfl

theorem corePart_filter_empty (catalog : List Exercise) (archetype : String)
    (equipmentAccess userPrefs : List String) (focus : String) (maxTime : Int)
    (coreSlot : String × Nat × String) (current : Int) (cIdx : Nat)
    (oc : Nat → Nat) (os : Nat → Nat → Nat)
    (h : filter_exercises catalog archetype equipmentAccess userPrefs focus coreSlot.1 = []) :
    corePart catalog archetype equipmentAccess userPrefs focus maxTime coreSlot current cIdx
      oc os = [] := by
  rw [corePart, if_neg]
  intro hcond
  exact hcond.1 h

theorem generate_ok_decomp {catalog : List Exercise} {data : WorkoutRequest}
    {oc : Nat → Nat} {os : Nat → Nat → Nat} {l : List ExerciseOut}
    (h : generate_workout catalog data oc os = Except.ok l) :
    data.archetype ≠ "" ∧
    ∃ plan focus,
      planGet data.archetype = some plan ∧ plan ≠ [] ∧ normFocus data = some focus ∧
      l = assembled catalog data.archetype (effectiveEquipment data) data.userPrefs focus
            data.availableTime plan oc os ∧
      l ≠ [] := by
  rw [generate_workout] at h
  split at h
  · cases h
  next harch =>
    split at h
    · cases h
    next plan hplan =>
      split at h
      · cases h
      next hplanne =>
        split at h
        · cases h
        next focus hfocus =>
          split at h
          · cases h
          next hne =>
            simp only [Except.ok.injEq] at h
            refine ⟨by simpa using harch, plan, focus, hplan, hplanne, hfocus, h.symm, ?_⟩
            rw [h] at hne
            exact hne

theorem headD_mem {α : Type} (l : List α) (d : α) (h : l ≠ []) : l.headD d ∈ l := by
  cases l with
  | nil => exact absurd rfl h
  | cons a t => simp [List.headD]

theorem getLastD_mem {α : Type} (l : List α) (d : α) (h : l ≠ []) : l.getLastD d ∈ l := by
  rw [List.getLastD_eq_getLast?, List.getLast?_eq_getLast l h]
  simp [List.getLast_mem]

theorem middle_subset (plan : List (String × Nat × String)) :
    ((plan.drop 1).dropLast) ⊆ plan :=
  ((List.dropLast_sublist (plan.drop 1)).trans (List.drop_sublist 1 plan)).subset

theorem generate_shape {catalog : List Exercise} {data : WorkoutRequest}
    {oc : Nat → Nat} {os : Nat → Nat → Nat} {l : List ExerciseOut}
    (h : generate_workout catalog data oc os = Except.ok l) :
    ∀ o ∈ l, ∃ plan focus st sets reps sugg j,
      planGet data.archetype = some plan ∧ normFocus data = some focus ∧
      (st, sets, reps) ∈ plan ∧
      filter_exercises catalog data.archetype (effectiveEquipment data) data.userPrefs focus
        st ≠ [] ∧
      o = mkOut (pyChoice (filter_exercises catalog data.archetype (effectiveEquipment data)
            data.userPrefs focus st) (oc j)) sets reps sugg
            (filter_exercises catalog data.archetype (effectiveEquipment data) data.userPrefs
              focus st) (os j) := by
  obtain ⟨-, plan, focus, hplan, hplanne, hfocus, hl, -⟩ := generate_ok_decomp h
  subst hl
  intro o ho
  rw [assembled] at ho
  rcases List.mem_append.mp ho with ho' | hoC
  · rcases List.mem_append.mp ho' with hoM | hoMid
    · obtain ⟨hne, heq⟩ := mainPart_shape _ _ _ _ _ _ _ _ _ _ hoM
      exact ⟨plan, focus, (plan.headD ("", 0, "")).1, (plan.headD ("", 0, "")).2.1,
        (plan.headD ("", 0, "")).2.2, some "Main lift to start the workout", 0, hplan, hfocus,
        headD_mem plan _ hplanne, hne, heq⟩
    · obtain ⟨st, sets, reps, j, hmem, hne, heq⟩ :=
        middleLoop_shape _ _ _ _ _ _ _ _ _ _ _ _ hoMid
      exact ⟨plan, focus, st, sets, reps, none, j, hplan, hfocus,
        middle_subset plan hmem, hne, heq⟩
  · obtain ⟨hne, heq⟩ := corePart_shape _ _ _ _ _ _ _ _ _ _ _ _ hoC
    exact ⟨plan, focus, (plan.getLastD ("", 0, "")).1, (plan.getLastD ("", 0, "")).2.1,
      (plan.getLastD ("", 0, "")).2.2, some "Core exercise to finish the workout",
      (plan.drop 1).dropLast.length + 1, hplan, hfocus,
      getLastD_mem plan _ hplanne, hne, heq⟩

theorem generate_eval {catalog : List Exercise} {data : WorkoutRequest}
    {oc : Nat → Nat} {os : Nat → Nat → Nat} {plan : List (String × Nat × String)} {focus : String}
    (harch : data.archetype ≠ "") (hplan : planGet data.archetype = some plan)
    (hplanne : plan ≠ []) (hfocus : normFocus data = some focus) :
    generate_workout catalog data oc os =
      if assembled catalog data.archetype (effectiveEquipment data) data.userPrefs focus
          data.availableTime plan oc os = [] then
        Except.error "No exercises found matching criteria"
      else Except.ok (assembled catalog data.archetype (effectiveEquipment data) data.userPrefs
        focus data.availableTime plan oc os) := by
  simp only [generate_workout, hplan, hfocus]
  rw [if_neg (show ¬(data.archetype == "") = true from by simpa using harch), if_neg hplanne]

/-- C2 amended: when constraints are so narrow that zero slots of a registered
archetype's plan can be filled (every slot's filter query is empty),
`generate_workout` raises the 400 error "No exercises found matching criteria"
rather than returning an empty list. -/
theorem C2_amended_empty_fill_raises :
    ∀ (catalog : List Exercise) (data : WorkoutRequest) (oc : Nat → Nat) (os : Nat → Nat → Nat)
      (plan : List (String × Nat × String)) (focus : String),
      data.archetype ≠ "" →
      planGet data.archetype = some plan →
      plan ≠ [] →
      normFocus data = some focus →
      (∀ s ∈ plan,
        filter_exercises catalog data.archetype (effectiveEquipment data) data.userPrefs focus
          s.1 = []) →
      generate_workout catalog data oc os =
        Except.error "No exercises found matching criteria" := by
  intro catalog data oc os plan focus harch hplan hplanne hfocus hall
  have hassembled : assembled catalog data.archetype (effectiveEquipment data) data.userPrefs
      focus data.availableTime plan oc os = [] := by
    rw [assembled,
      mainPart_filter_empty _ _ _ _ _ _ _ _ _ (hall _ (headD_mem plan _ hplanne)),
      middleLoop_all_empty _ _ _ _ _ _ _ _ _ _ _
        (fun s hs => hall s (middle_subset plan hs)),
      corePart_filter_empty _ _ _ _ _ _ _ _ _ _ _ (hall _ (getLastD_mem plan _ hplanne))]
    rfl
  rw [generate_eval harch hplan hplanne hfocus, if_pos hassembled]

theorem normFocus_values {data : WorkoutRequest} {focus : String}
    (h : normFocus data = some focus) :
    focus = "upper" ∨ focus = "lower" ∨ focus = "full body" := by
  unfold normFocus focusMap at h
  split at h
  · exact Or.inl (Option.some.inj h).symm
  split at h
  · exact Or.inr (Or.inl (Option.some.inj h).symm)
  split at h
  · exact Or.inr (Or.inr (Option.some.inj h).symm)
  · cases h

/-- C1: the claim (and spec §8) says `generate_workout` never includes the same
exercise name twice in one response.  The code keeps no chosen-set: on the
one-exercise catalog `[exC1]` under the Titan plan (which has two
`bilateralisolation` slots), the same exercise is selected for both slots.
The response names are `["Leg Ext", "Leg Ext"]` — not duplicate-free.  The
spec is clearly the intent (§3 SelectionState exists precisely "to prevent
duplicates", §4.4 "no exercise repeats"), so this run exhibits a code bug. -/
theorem C1_duplicate_names :
    namesOf (generate_workout [exC1] reqC1 ocZ osZ) = ["Leg Ext", "Leg Ext"] ∧
    ¬ (namesOf (generate_workout [exC1] reqC1 ocZ osZ)).Nodup := by
  refine ⟨rfl, ?_⟩
  rw [show namesOf (generate_workout [exC1] reqC1 ocZ osZ) = ["Leg Ext", "Leg Ext"] from rfl]
  decide

/-- C2 counterexample: with the registered archetype Titan and an empty
catalog — so zero slots of the plan can be filled — `generate_workout` raises
the 400 error "No exercises found matching criteria" (src/main.py lines
303-304) and returns no list at all, refuting the claim that it returns an
empty list and does not raise. -/
theorem C2_counterexample :
    (planGet "Titan").isSome = true ∧
    generate_workout [] reqC1 ocZ osZ = Except.error "No exercises found matching criteria" ∧
    ∀ l : List ExerciseOut, generate_workout [] reqC1 ocZ osZ ≠ Except.ok l := by
  refine ⟨rfl, rfl, ?_⟩
  intro l hcontra
  rw [show generate_workout [] reqC1 ocZ osZ =
    Except.error "No exercises found matching criteria" from rfl] at hcontra
  cases hcontra

/-- C3 counterexample: on the catalog `[exA, exB]` with an upper-focus Titan
request, the `volumecompound` slot's strict filter is empty while both of the
spec's relaxed queries (focus relaxed; role dropped) are non-empty — they
accept `exA` — yet the response is `["Lat Raise", "Lat Raise"]` and never
contains `exA`'s name: the engine performs no relaxed retry at all. -/
theorem C3_counterexample :
    filter_exercises [exA, exB] "Titan" ["Machine"] [] "upper" "volumecompound" = [] ∧
    filter_relax_focus [exA, exB] "Titan" ["Machine"] [] "volumecompound" = [exA] ∧
    filter_drop_role [exA, exB] "Titan" ["Machine"] [] = [exA, exB] ∧
    namesOf (generate_workout [exA, exB] reqC1 ocZ osZ) = ["Lat Raise", "Lat Raise"] ∧
    "Machine Row Heavy" ∉ namesOf (generate_workout [exA, exB] reqC1 ocZ osZ) := by
  refine ⟨rfl, rfl, rfl, rfl, ?_⟩
  rw [show namesOf (generate_workout [exA, exB] reqC1 ocZ osZ) =
    ["Lat Raise", "Lat Raise"] from rfl]
  decide

/-- C8: `generate_workout` fails with the 400 client error "Archetype is
required." when no archetype is supplied (Python-falsy empty string), and
with the 400 client error "Invalid archetype" when the supplied archetype has
no registered plan; in both cases an `Except.error` is returned, never an
exercise list. -/
theorem C8_archetype_errors :
    ∀ (catalog : List Exercise) (data : WorkoutRequest) (oc : Nat → Nat) (os : Nat → Nat → Nat),
      (data.archetype = "" →
        generate_workout catalog data oc os = Except.error "Archetype is required.") ∧
      (data.archetype ≠ "" → planGet data.archetype = none →
        generate_workout catalog data oc os = Except.error "Invalid archetype") := by
  intro catalog data oc os
  constructor
  · intro h
    rw [generate_workout, if_pos (by simpa using h)]
  · intro hne hplan
    rw [generate_workout, if_neg (by simpa using hne)]
    simp only [hplan]

/-- C8 witness: both error paths exercised at concrete requests (the empty
archetype, and the spec's unknown archetype "Ghost"). -/
theorem C8_witness :
    generate_workout [] reqNoArch ocZ osZ = Except.error "Archetype is required." ∧
    generate_workout [] reqGhost ocZ osZ = Except.error "Invalid archetype" :=
  ⟨(C8_archetype_errors [] reqNoArch ocZ osZ).1 rfl,
   (C8_archetype_errors [] reqGhost ocZ osZ).2 (by decide) rfl⟩

/-- C10: for archetype "Bodyweight" the effective equipment-access set is
exactly `["Bodyweight"]`, overriding any client-supplied list; for any other
archetype with an empty (or absent, which pydantic defaults to empty) list it
is the fixed six-token default. -/
theorem C10_effective_equipment :
    ∀ data : WorkoutRequest,
      (data.archetype = "Bodyweight" → effectiveEquipment data = ["Bodyweight"]) ∧
      (data.archetype ≠ "Bodyweight" → data.equipmentAccess = [] →
        effectiveEquipment data =
          ["Barbell", "Dumbbell", "Cable", "Kettlebell", "Machine", "Bodyweight"]) := by
  intro data
  constructor
  · intro h
    rw [effectiveEquipment, if_pos (by simpa using h)]
  · intro h he
    rw [effectiveEquipment, if_neg (by simpa using h), if_pos (by simpa using he)]

/-- C2 witness: the amended theorem applied to the empty catalog and a Prime
request — every slot filter is empty, and the run errors as stated. -/
theorem C2_witness :
    generate_workout [] reqPrime ocZ osZ =
      Except.error "No exercises found matching criteria" :=
  C2_amended_empty_fill_raises [] reqPrime ocZ osZ
    [("powercompound", 3, "3-5"), ("explosive", 3, "5"), ("contrast set", 3, "6"),
     ("unilateralisolation", 2, "8-10"), ("core", 3, "20")] "lower"
    (by decide) rfl (by decide) rfl (fun s _ => rfl)

/-- C3 amended: the engine has no relaxation cascade.  Every exercise in a
successful response is drawn from the strict filter (role + archetype +
equipment + focus + exclusions) of some slot of the plan; a slot whose strict
filter is empty is simply skipped, with no relaxed retries and no error from
that slot alone. -/
theorem C3_amended_strict_only :
    ∀ (catalog : List Exercise) (data : WorkoutRequest) (oc : Nat → Nat) (os : Nat → Nat → Nat)
      (l : List ExerciseOut),
      generate_workout catalog data oc os = Except.ok l →
      ∀ o ∈ l, ∃ plan focus st sets reps,
        planGet data.archetype = some plan ∧ normFocus data = some focus ∧
        (st, sets, reps) ∈ plan ∧
        ∃ ex ∈ filter_exercises catalog data.archetype (effectiveEquipment data) data.userPrefs
            focus st, o.name = ex.name := by
  intro catalog data oc os l h o ho
  obtain ⟨plan, focus, st, sets, reps, sugg, j, hplan, hfocus, hmem, hne, heq⟩ :=
    generate_shape h o ho
  exact ⟨plan, focus, st, sets, reps, hplan, hfocus, hmem,
    ⟨pyChoice _ (oc j), pyChoice_mem _ _ hne, by rw [heq]; rfl⟩⟩

/-- C3 witness: the amended theorem applied to a concrete successful run. -/
theorem C3_witness :
    ∃ l, generate_workout [exMain, exCore] reqW ocZ osZ = Except.ok l ∧
      ∀ o ∈ l, ∃ plan focus st sets reps,
        planGet reqW.archetype = some plan ∧ normFocus reqW = some focus ∧
        (st, sets, reps) ∈ plan ∧
        ∃ ex ∈ filter_exercises [exMain, exCore] reqW.archetype (effectiveEquipment reqW)
            reqW.userPrefs focus st, o.name = ex.name :=
  ⟨[benchRec, plankRec], rfl, C3_amended_strict_only [exMain, exCore] reqW ocZ osZ _ rfl⟩

/-- C6: every exercise of a successful response corresponds to a catalog
record whose equipment set has non-empty intersection with the effective
equipment-access set (after the Bodyweight override / empty-set default). -/
theorem C6_equipment_invariant :
    ∀ (catalog : List Exercise) (data : WorkoutRequest) (oc : Nat → Nat) (os : Nat → Nat → Nat)
      (l : List ExerciseOut),
      generate_workout catalog data oc os = Except.ok l →
      ∀ o ∈ l, ∃ ex, ex ∈ catalog ∧ ex.name = o.name ∧
        ∃ e ∈ ex.equipment, e ∈ effectiveEquipment data := by
  intro catalog data oc os l h o ho
  obtain ⟨plan, focus, st, sets, reps, sugg, j, hplan, hfocus, hmem, hne, heq⟩ :=
    generate_shape h o ho
  have hchosen := pyChoice_mem _ (oc j) hne
  obtain ⟨hcat, hmatch⟩ := mem_filter_exercises.mp hchosen
  obtain ⟨hequip, -⟩ := exMatches_parts hmatch
  exact ⟨_, hcat, by rw [heq]; rfl, hequip⟩

/-- C6 witness: the theorem applied to a concrete successful run. -/
theorem C6_witness :
    ∃ l, generate_workout [exMain, exCore] reqW ocZ osZ = Except.ok l ∧
      ∀ o ∈ l, ∃ ex, ex ∈ [exMain, exCore] ∧ ex.name = o.name ∧
        ∃ e ∈ ex.equipment, e ∈ effectiveEquipment reqW :=
  ⟨[benchRec, plankRec], rfl,
    C6_equipment_invariant [exMain, exCore] reqW ocZ osZ [benchRec, plankRec] rfl⟩

/-- C5: for every record of a successful response, the alternatives list has
length at most 3, never contains the chosen exercise's name, and every entry
names an exercise of the slot's filtered pool sharing the chosen exercise's
muscle group; when fewer than 3 such alternatives qualify, every qualifying
alternative is returned. -/
theorem C5_alternatives :
    ∀ (catalog : List Exercise) (data : WorkoutRequest) (oc : Nat → Nat) (os : Nat → Nat → Nat)
      (l : List ExerciseOut),
      generate_workout catalog data oc os = Except.ok l →
      ∀ o ∈ l,
        o.alternatives.length ≤ 3 ∧
        o.name ∉ o.alternatives ∧
        ∃ plan focus st sets reps,
          planGet data.archetype = some plan ∧ normFocus data = some focus ∧
          (st, sets, reps) ∈ plan ∧
          ∃ chosen ∈ filter_exercises catalog data.archetype (effectiveEquipment data)
              data.userPrefs focus st,
            o.name = chosen.name ∧
            (∀ a ∈ o.alternatives,
              ∃ ex ∈ filter_exercises catalog data.archetype (effectiveEquipment data)
                  data.userPrefs focus st,
                ex.name = a ∧ ex.muscleGroup = o.muscleGroup) ∧
            ((altNames (filter_exercises catalog data.archetype (effectiveEquipment data)
                data.userPrefs focus st) chosen).length < 3 →
              ∀ a ∈ altNames (filter_exercises catalog data.archetype (effectiveEquipment data)
                  data.userPrefs focus st) chosen, a ∈ o.alternatives) := by
  intro catalog data oc os l h o ho
  obtain ⟨plan, focus, st, sets, reps, sugg, j, hplan, hfocus, hmem, hne, heq⟩ :=
    generate_shape h o ho
  subst heq
  obtain ⟨h1, h2, h3, h4⟩ := mkOut_alt_facts
    (pyChoice (filter_exercises catalog data.archetype (effectiveEquipment data) data.userPrefs
      focus st) (oc j)) sets reps sugg
    (filter_exercises catalog data.archetype (effectiveEquipment data) data.userPrefs focus st)
    (os j)
  exact ⟨h1, h2, plan, focus, st, sets, reps, hplan, hfocus, hmem,
    pyChoice _ (oc j), pyChoice_mem _ _ hne, rfl, h3, h4⟩

/-- C5 witness: the theorem applied to a concrete run that returns a main lift
with one alternative, two middle records and a core record. -/
theorem C5_witness :
    ∃ l, generate_workout [exMain, exMain2, exCore, exB] reqW ocZ osZ = Except.ok l ∧
      ∀ o ∈ l,
        o.alternatives.length ≤ 3 ∧
        o.name ∉ o.alternatives ∧
        ∃ plan focus st sets reps,
          planGet reqW.archetype = some plan ∧ normFocus reqW = some focus ∧
          (st, sets, reps) ∈ plan ∧
          ∃ chosen ∈ filter_exercises [exMain, exMain2, exCore, exB] reqW.archetype
              (effectiveEquipment reqW) reqW.userPrefs focus st,
            o.name = chosen.name ∧
            (∀ a ∈ o.alternatives,
              ∃ ex ∈ filter_exercises [exMain, exMain2, exCore, exB] reqW.archetype
                  (effectiveEquipment reqW) reqW.userPrefs focus st,
                ex.name = a ∧ ex.muscleGroup = o.muscleGroup) ∧
            ((altNames (filter_exercises [exMain, exMain2, exCore, exB] reqW.archetype
                (effectiveEquipment reqW) reqW.userPrefs focus st) chosen).length < 3 →
              ∀ a ∈ altNames (filter_exercises [exMain, exMain2, exCore, exB] reqW.archetype
                  (effectiveEquipment reqW) reqW.userPrefs focus st) chosen,
                a ∈ o.alternatives) :=
  ⟨[⟨"Bench Press", "Chest", "Compound", 4, "5", 60, ["Incline Press"],
      some "Main lift to start the workout"⟩,
    ⟨"Lat Raise", "Shoulders", "Isolation", 3, "10-12", 60, [], none⟩,
    ⟨"Lat Raise", "Shoulders", "Isolation", 3, "10-12", 60, [], none⟩,
    ⟨"Plank", "Abs", "Isometric", 3, "15", 60, [], some "Core exercise to finish the workout"⟩],
   rfl, C5_alternatives [exMain, exMain2, exCore, exB] reqW ocZ osZ _ rfl⟩

/-- C7: for the normalised request focus, every returned exercise of a
non-core slot has `bodyRegion` equal to the focus whenever the focus is not
"full body", and every exercise returned for a core slot has `bodyRegion`
"core" regardless of the focus. -/
theorem C7_focus_invariant :
    ∀ (catalog : List Exercise) (data : WorkoutRequest) (oc : Nat → Nat) (os : Nat → Nat → Nat)
      (l : List ExerciseOut) (focus : String),
      generate_workout catalog data oc os = Except.ok l →
      normFocus data = some focus →
      ∀ o ∈ l, ∃ plan st sets reps ex,
        planGet data.archetype = some plan ∧ (st, sets, reps) ∈ plan ∧
        ex ∈ catalog ∧ ex.name = o.name ∧
        (pyLower (pyTrim st) = "core" → ex.bodyRegion = "core") ∧
        (pyLower (pyTrim st) ≠ "core" → focus ≠ "full body" → ex.bodyRegion = focus) := by
  intro catalog data oc os l focus h hfocus o ho
  obtain ⟨plan, focus', st, sets, reps, sugg, j, hplan, hfocus', hmem, hne, heq⟩ :=
    generate_shape h o ho
  rw [hfocus] at hfocus'
  injection hfocus' with hfeq
  subst hfeq
  have hchosen := pyChoice_mem _ (oc j) hne
  obtain ⟨hcat, hmatch⟩ := mem_filter_exercises.mp hchosen
  obtain ⟨-, hregion⟩ := exMatches_parts hmatch
  refine ⟨plan, st, sets, reps, _, hplan, hmem, hcat, by rw [heq]; rfl, ?_, ?_⟩
  · intro hcore
    rw [bodyRegionFilter, if_pos (beq_iff_eq.mpr hcore)] at hregion
    simpa using hregion
  · intro hncore hnfull
    rw [bodyRegionFilter, if_neg (by simpa using hncore)] at hregion
    rcases normFocus_values hfocus with hf | hf | hf
    · subst hf
      rw [if_pos (by rfl)] at hregion
      simpa using hregion
    · subst hf
      rw [if_neg (by decide), if_pos (by rfl)] at hregion
      simpa using hregion
    · exact absurd hf hnfull

/-- C7 witness: the theorem applied to a concrete upper-focus run. -/
theorem C7_witness :
    ∃ l, generate_workout [exMain, exCore] reqW ocZ osZ = Except.ok l ∧
      ∀ o ∈ l, ∃ plan st sets reps ex,
        planGet reqW.archetype = some plan ∧ (st, sets, reps) ∈ plan ∧
        ex ∈ [exMain, exCore] ∧ ex.name = o.name ∧
        (pyLower (pyTrim st) = "core" → ex.bodyRegion = "core") ∧
        (pyLower (pyTrim st) ≠ "core" → "upper" ≠ "full body" → ex.bodyRegion = "upper") :=
  ⟨[benchRec, plankRec], rfl,
    C7_focus_invariant [exMain, exCore] reqW ocZ osZ [benchRec, plankRec] "upper" rfl rfl⟩

/-- C4 counterexample: the negation of the claim's per-archetype policy
selectability.  The linear-skip policy (skip an unaffordable middle slot but
still attempt later middle slots) is exhibited by no catalog, archetype,
configuration or oracle whatsoever: whenever the budget-margin check fails at
a middle slot, the loop emits nothing further — so no archetype configuration
can select the alternative policy. -/
theorem C4_counterexample :
    ¬ ∃ (catalog : List Exercise) (archetype : String) (equipmentAccess userPrefs : List String)
        (focus : String) (maxTime : Int) (oc : Nat → Nat) (os : Nat → Nat → Nat)
        (subtype : String) (sets : Nat) (reps : String)
        (rest : List (String × Nat × String)) (current : Int) (idx : Nat),
      current + subtypeTime (pyLower subtype) 6 > maxTime - subtypeTime "core" 5 ∧
      (middleLoop catalog archetype equipmentAccess userPrefs focus maxTime oc os
        ((subtype, sets, reps) :: rest) current idx).1 ≠ [] := by
  rintro ⟨catalog, archetype, equipmentAccess, userPrefs, focus, maxTime, oc, os,
    subtype, sets, reps, rest, current, idx, hgt, hne⟩
  rw [middleLoop_break _ _ _ _ _ _ _ _ _ _ _ _ _ _ hgt] at hne
  exact hne rfl

theorem mkOut_suggestion (chosen : Exercise) (sets : Nat) (reps : String) (sugg : Option String)
    (filtered : List Exercise) (f : Nat → Nat) :
    (mkOut chosen sets reps sugg filtered f).suggestion = sugg := rfl

/-- C4 amended: the guaranteed-bookends behaviour holds unconditionally, for
every archetype, and is the only policy (no per-archetype selection exists):
(1) the middle loop terminates outright (break, not per-slot skip) as soon as
consumed time plus the next slot's cost exceeds the budget minus the closing
core reserve, contributing nothing further and leaving `current_time`
unchanged; and (2) the first-slot record (suggestion "Main lift to start the
workout") and closing record (suggestion "Core exercise to finish the
workout") are attempted outside the loop and appear, when present, exactly
first and last in the response. -/
theorem C4_amended_bookends :
    (∀ (catalog : List Exercise) (archetype : String) (equipmentAccess userPrefs : List String)
        (focus : String) (maxTime : Int) (oc : Nat → Nat) (os : Nat → Nat → Nat)
        (subtype : String) (sets : Nat) (reps : String)
        (rest : List (String × Nat × String)) (current : Int) (idx : Nat),
        current + subtypeTime (pyLower subtype) 6 > maxTime - subtypeTime "core" 5 →
        middleLoop catalog archetype equipmentAccess userPrefs focus maxTime oc os
          ((subtype, sets, reps) :: rest) current idx = ([], current)) ∧
    (∀ (catalog : List Exercise) (data : WorkoutRequest) (oc : Nat → Nat) (os : Nat → Nat → Nat)
        (l : List ExerciseOut) (o : ExerciseOut),
        generate_workout catalog data oc os = Except.ok l → o ∈ l →
        (o.suggestion = some "Main lift to start the workout" → l.head? = some o) ∧
        (o.suggestion = some "Core exercise to finish the workout" → l.getLast? = some o)) := by
  constructor
  · exact middleLoop_break
  · intro catalog data oc os l o h ho
    obtain ⟨-, plan, focus, hplan, hplanne, hfocus, hl, -⟩ := generate_ok_decomp h
    subst hl
    constructor
    · intro hsugg
      rw [assembled] at ho ⊢
      rcases List.mem_append.mp ho with ho' | hoC
      · rcases List.mem_append.mp ho' with hoM | hoMid
        · rcases mainPart_cases catalog data.archetype (effectiveEquipment data) data.userPrefs
              focus data.availableTime (plan.headD ("", 0, "")) oc os with hc | hc
          · rw [hc] at hoM; cases hoM
          · rw [hc] at hoM
            rcases List.mem_cons.mp hoM with h1 | h1
            · rw [hc, h1]
              rfl
            · cases h1
        · have hnone := middleLoop_sugg_none _ _ _ _ _ _ _ _ _ _ _ _ hoMid
          rw [hnone] at hsugg; cases hsugg
      · obtain ⟨-, heq⟩ := corePart_shape _ _ _ _ _ _ _ _ _ _ _ _ hoC
        rw [heq, mkOut_suggestion] at hsugg
        injection hsugg with hstr
        exact absurd hstr (by decide)
    · intro hsugg
      rw [assembled] at ho ⊢
      rcases List.mem_append.mp ho with ho' | hoC
      · rcases List.mem_append.mp ho' with hoM | hoMid
        · obtain ⟨-, heq⟩ := mainPart_shape _ _ _ _ _ _ _ _ _ _ hoM
          rw [heq, mkOut_suggestion] at hsugg
          injection hsugg with hstr
          exact absurd hstr (by decide)
        · have hnone := middleLoop_sugg_none _ _ _ _ _ _ _ _ _ _ _ _ hoMid
          rw [hnone] at hsugg; cases hsugg
      · rcases corePart_cases catalog data.archetype (effectiveEquipment data) data.userPrefs
            focus data.availableTime (plan.getLastD ("", 0, "")) _ _ oc os with hc | hc
        · rw [hc] at hoC; cases hoC
        · rw [hc] at hoC
          rcases List.mem_cons.mp hoC with h1 | h1
          · rw [hc, h1]
            exact List.getLast?_concat _
          · cases h1

/-- C4 witness: part (1) applied at a concrete margin-violating state, and
part (2) applied to a concrete run whose main record is first and whose core
record is last. -/
theorem C4_witness :
    middleLoop [] "Titan" [] [] "upper" 0 ocZ osZ [("volumecompound", 4, "6")] 0 1 = ([], 0) ∧
    [benchRec, plankRec].head? = some benchRec ∧
    [benchRec, plankRec].getLast? = some plankRec :=
  ⟨C4_amended_bookends.1 [] "Titan" [] [] "upper" 0 ocZ osZ "volumecompound" 4 "6" [] 0 1
      (by decide),
   (C4_amended_bookends.2 [exMain, exCore] reqW ocZ osZ [benchRec, plankRec] benchRec rfl
      (List.mem_cons_self _ _)).1 rfl,
   (C4_amended_bookends.2 [exMain, exCore] reqW ocZ osZ [benchRec, plankRec] plankRec rfl
      (List.mem_cons_of_mem _ (List.mem_cons_self _ _))).2 rfl⟩

theorem nodup_key_val_eq {α β : Type} :
    ∀ (l : List (α × β)), (l.map Prod.fst).Nodup →
      ∀ {k : α} {a b : β}, (k, a) ∈ l → (k, b) ∈ l → a = b := by
  intro l
  induction l with
  | nil => intro _ k a b ha _; cases ha
  | cons p t ih =>
    intro hnd k a b ha hb
    rw [List.map_cons, List.nodup_cons] at hnd
    rcases List.mem_cons.mp ha with ha' | ha' <;> rcases List.mem_cons.mp hb with hb' | hb'
    · rw [← ha'] at hb'
      injection hb' with h1 h2
      exact h2.symm
    · exact absurd (List.mem_map.mpr ⟨(k, b), hb', rfl⟩)
        (by rw [← ha'] at hnd; exact hnd.1)
    · exact absurd (List.mem_map.mpr ⟨(k, a), ha', rfl⟩)
        (by rw [← hb'] at hnd; exact hnd.1)
    · exact ih hnd.2 ha' hb'

theorem plateauHit_iff (sessions : List (List Int)) :
    plateauHit sessions = true ↔
      3 ≤ sessions.length ∧ ∃ v, sessions.drop (sessions.length - 3) = [v, v, v] := by
  rw [plateauHit]
  split
  · next h3 =>
    split
    · next a b c hdrop =>
      simp only [Bool.and_eq_true, beq_iff_eq]
      constructor
      · rintro ⟨h1, h2⟩
        subst h1; subst h2
        exact ⟨h3, _, hdrop⟩
      · rintro ⟨-, v, hv⟩
        rw [hdrop] at hv
        injection hv with e1 hv
        injection hv with e2 hv
        injection hv with e3 hv
        subst e1; subst e2; subst e3
        exact ⟨rfl, rfl⟩
    · next hnomatch =>
      constructor
      · intro hfalse; cases hfalse
      · rintro ⟨-, v, hv⟩
        exact absurd hv (fun hv' => hnomatch v v v hv')
  · next h3 =>
    constructor
    · intro hfalse; cases hfalse
    · rintro ⟨h3', -⟩
      exact absurd h3' h3

/-- C9: `compute_suggestions` (modelled from the spec, §4.5/§6 — no such code
exists in src/main.py) is a pure function of the injected history: every id
whose session list has length at least 3 and whose most recent 3 weight
vectors are identical maps to the plateau suggestion, and an id with fewer
than 3 sessions or differing recent vectors has no entry in the output. -/
theorem C9_compute_suggestions :
    ∀ (history : List (String × List (List Int))) (exId : String) (sessions : List (List Int)),
      (history.map Prod.fst).Nodup →
      (exId, sessions) ∈ history →
      ((3 ≤ sessions.length ∧ ∃ v, sessions.drop (sessions.length - 3) = [v, v, v]) →
        (exId, PLATEAU_TEXT) ∈ compute_suggestions history) ∧
      ((sessions.length < 3 ∨ ∀ v, sessions.drop (sessions.length - 3) ≠ [v, v, v]) →
        ∀ t, (exId, t) ∉ compute_suggestions history) := by
  intro history exId sessions hnd hmem
  constructor
  · intro hcond
    have hhit : plateauHit sessions = true := (plateauHit_iff sessions).mpr hcond
    rw [compute_suggestions]
    exact List.mem_filterMap.mpr ⟨(exId, sessions), hmem, by rw [if_pos hhit]⟩
  · intro hcond t ht
    rw [compute_suggestions] at ht
    obtain ⟨⟨k, s⟩, hks, hsome⟩ := List.mem_filterMap.mp ht
    by_cases hhit : plateauHit s = true
    · rw [if_pos hhit] at hsome
      injection hsome with hpair
      injection hpair with hk ht'
      subst hk
      have hs : s = sessions := nodup_key_val_eq history hnd hks hmem
      subst hs
      obtain ⟨h3, v, hv⟩ := (plateauHit_iff s).mp hhit
      rcases hcond with hlt | hall
      · omega
      · exact hall v hv
    · rw [if_neg hhit] at hsome
      cases hsome

/-- C9 witness: the spec's own example — three identical bench-press sessions
produce a plateau entry; two sessions, or three with differing weights,
produce none. -/
theorem C9_witness :
    (("bench-press", PLATEAU_TEXT) ∈
      compute_suggestions [("bench-press", [[100, 100], [100, 100], [100, 100]])]) ∧
    (∀ t, ("bench-press", t) ∉
      compute_suggestions [("bench-press", [[100, 100], [100, 100]])]) ∧
    (∀ t, ("bench-press", t) ∉
      compute_suggestions [("bench-press", [[100, 100], [100, 100], [105, 105]])]) := by
  refine ⟨?_, ?_, ?_⟩
  · exact (C9_compute_suggestions [("bench-press", [[100, 100], [100, 100], [100, 100]])]
      "bench-press" [[100, 100], [100, 100], [100, 100]] (by decide)
      (List.mem_cons_self _ _)).1 ⟨by decide, [100, 100], rfl⟩
  · exact (C9_compute_suggestions [("bench-press", [[100, 100], [100, 100]])]
      "bench-press" [[100, 100], [100, 100]] (by decide)
      (List.mem_cons_self _ _)).2 (Or.inl (by decide))
  · refine (C9_compute_suggestions [("bench-press", [[100, 100], [100, 100], [105, 105]])]
      "bench-press" [[100, 100], [100, 100], [105, 105]] (by decide)
      (List.mem_cons_self _ _)).2 (Or.inr ?_)
    intro v hv
    injection hv with e1 hv'
    injection hv' with e2 hv''
    injection hv'' with e3 hv'''
    rw [← e1] at e3
    exact absurd e3 (by decide)

/-- C10 witness: both branches at concrete requests (a Bodyweight request
carrying a client list that gets overridden, and a Titan request with an
empty list). -/
theorem C10_witness :
    effectiveEquipment (WorkoutRequest.mk 40 "Bodyweight" "Full Body" ["Barbell"] []) =
      ["Bodyweight"] ∧
    effectiveEquipment reqW =
      ["Barbell", "Dumbbell", "Cable", "Kettlebell", "Machine", "Bodyweight"] :=
  ⟨(C10_effective_equipment _).1 rfl, (C10_effective_equipment reqW).2 (by decide) rfl⟩
